import Mathlib

/-!
Verification of the agent-runtime core: a shallow embedding, in Lean, of the
retry handler (`src/agents/error_handler.py`), the metrics monitor
(`src/monitoring/monitor.py`), the agent bus (`src/agents/agent_bus.py`),
the agent execution lifecycle (`src/agents/aethero_agent_bootstrap.py`) and
the tag parser (`src/asl_parser.py`), together with theorems settling the
specification claims about them.

Modelling conventions: Python dicts become association lists with
insert-or-overwrite preserving the original insertion position; Python
exceptions become `Except`; the wall clock (`datetime.now()`) becomes an
explicit `now : String` argument; Python floats appearing as exact decimal
percentages or delays are modelled as rationals; strings processed
character-by-character are modelled as `List Char` (ASCII reading of
`str.isdigit`, `str.lower`, `str.strip`).
-/

namespace PyDict

/-- Python-dict insert-or-overwrite on an association list: an existing key
keeps its position and gets the new value, a new key is appended. -/
def dictSet {α : Type} : List (String × α) → String → α → List (String × α)
  | [], k, v => [(k, v)]
  | p :: rest, k, v =>
    if p.1 = k then (k, v) :: rest else p :: dictSet rest k v

end PyDict

namespace ErrorHandler

/-- Retry policy for an agent, the two keys `_handle_retry` reads
(`policy.get("max_retries", 3)`, `policy.get("delay", 1)`). -/
structure RetryPolicy where
  max_retries : Nat
  delay : ℚ
deriving DecidableEq

/-- The dictionary returned by `ErrorHandler._handle_retry`: either the
retry outcome or the terminal error outcome. -/
inductive RetryOutcome where
  | retry (retry_count : Nat) (next_retry_delay : ℚ) (task_id : String)
  | error (message : String) (task_id : String) (agent_id : String)
deriving DecidableEq

/-- `ErrorHandler._handle_retry`: given the agent's policy and the
`retry_count` read from `error_context.additional_data` (default 0), either
sleep `delay * 2 ** current_retry` and return the retry outcome, or return
the terminal error outcome.  The first component is the duration of the
`asyncio.sleep` performed (`none` when no sleep happens). -/
def handle_retry (policy : RetryPolicy) (retry_count : Nat)
    (task_id agent_id : String) : Option ℚ × RetryOutcome :=
  let max_retries := policy.max_retries
  let delay := policy.delay
  let current_retry := retry_count
  if current_retry < max_retries then
    let retry_delay := delay * 2 ^ current_retry
    (some retry_delay,
      .retry (current_retry + 1) (retry_delay * 2) task_id)
  else
    (none, .error "Max retries exceeded" task_id agent_id)

/-- The advisory `next_retry_delay` field of a retry outcome. -/
def RetryOutcome.nextRetryDelay : RetryOutcome → Option ℚ
  | .retry _ d _ => some d
  | .error _ _ _ => none

/-- The `message` field of a terminal error outcome. -/
def RetryOutcome.errorMessage : RetryOutcome → Option String
  | .retry _ _ _ => none
  | .error m _ _ => some m

end ErrorHandler

namespace Monitor

/-- The `disk_usage` dictionary stored in a `SystemMetrics` sample. -/
structure DiskUsage where
  total : ℚ
  used : ℚ
  free : ℚ
  percent : ℚ
deriving DecidableEq

/-- `SystemMetrics` dataclass (timestamp as an explicit argument). -/
structure SystemMetrics where
  cpu_percent : ℚ
  memory_percent : ℚ
  disk_usage : DiskUsage
  timestamp : String
deriving DecidableEq

/-- `AetheroMonitor.alert_thresholds`. -/
structure AlertThresholds where
  cpu_percent : ℚ
  memory_percent : ℚ
  disk_percent : ℚ
deriving DecidableEq

/-- The thresholds installed by `AetheroMonitor.__init__`:
`{"cpu_percent": 80.0, "memory_percent": 80.0, "disk_percent": 90.0}`. -/
def defaultThresholds : AlertThresholds := ⟨80, 80, 90⟩

/-- The alert-message list built by `AetheroMonitor._check_alerts`: one
message per threshold strictly exceeded, in the source's fixed order
CPU, memory, disk. -/
def check_alerts (th : AlertThresholds) (m : SystemMetrics) : List String :=
  (if m.cpu_percent > th.cpu_percent
    then ["High CPU usage: " ++ toString m.cpu_percent ++ "%"] else []) ++
  (if m.memory_percent > th.memory_percent
    then ["High memory usage: " ++ toString m.memory_percent ++ "%"] else []) ++
  (if m.disk_usage.percent > th.disk_percent
    then ["High disk usage: " ++ toString m.disk_usage.percent ++ "%"] else [])

/-- The `alert_data` dictionary passed to every alert callback. -/
structure AlertData where
  timestamp : String
  alerts : List String
  metrics : SystemMetrics
deriving DecidableEq

/-- The callback invocations performed by `_check_alerts`: when the alert
list is nonempty every registered callback (identified here by its index of
registration) is invoked exactly once with the same `alert_data`; when it is
empty no callback is invoked.  Callback failures are caught inside the loop,
so the invocation list never depends on individual callbacks failing. -/
def check_alerts_invocations (th : AlertThresholds) (callbacks : List Nat)
    (m : SystemMetrics) (now : String) : List (Nat × AlertData) :=
  let alerts := check_alerts th m
  if alerts.isEmpty then []
  else callbacks.map (fun cb => (cb, ⟨now, alerts, m⟩))

/-- `AgentMetrics` dataclass. -/
structure AgentMetrics where
  agent_id : String
  status : String
  tasks_processed : Nat
  errors_count : Nat
  avg_processing_time : ℚ
  last_active : String
  memory_usage : ℚ
  cpu_usage : ℚ
deriving DecidableEq

/-- The metrics dictionary passed to `update_agent_metrics`; `none` models
an absent key, read through `.get(key, default)`. -/
structure MetricsUpdate where
  status : Option String
  tasks_processed : Option Nat
  errors_count : Option Nat
  avg_processing_time : Option ℚ
  last_active : Option String
  memory_usage : Option ℚ
  cpu_usage : Option ℚ
deriving DecidableEq

/-- The `AgentMetrics` record `update_agent_metrics` builds from the input
dictionary, with the source's `.get` defaults (`now` is the
`datetime.now().isoformat()` read for a missing `last_active`). -/
def buildAgentMetrics (agent_id : String) (u : MetricsUpdate) (now : String) :
    AgentMetrics :=
  { agent_id := agent_id
    status := u.status.getD "unknown"
    tasks_processed := u.tasks_processed.getD 0
    errors_count := u.errors_count.getD 0
    avg_processing_time := u.avg_processing_time.getD 0
    last_active := u.last_active.getD now
    memory_usage := u.memory_usage.getD 0
    cpu_usage := u.cpu_usage.getD 0 }

/-- One call to `update_agent_metrics`, with the clock reading it made. -/
structure UpdateOp where
  agent_id : String
  metrics : MetricsUpdate
  now : String

/-- `AetheroMonitor.agent_metrics` after a sequence of
`update_agent_metrics` calls starting from the empty table of `__init__`. -/
def applyUpdates (ops : List UpdateOp) : List (String × AgentMetrics) :=
  ops.foldl (fun d op => PyDict.dictSet d op.agent_id
    (buildAgentMetrics op.agent_id op.metrics op.now)) []

/-- The value `get_agent_metrics` produces: one agent's dictionary
(`.to_dict()` of the stored record), or the dictionary over all stored
agents, or the `AttributeError` raised when the `.get` default `{}` (a
plain dict with no `to_dict`) is hit. -/
inductive GetMetricsResult where
  | single (m : AgentMetrics)
  | all (d : List (String × AgentMetrics))
  | attrError (msg : String)
deriving DecidableEq

/-- Python truthiness of the `Optional[str]` argument `agent_id`: `None`
and the empty string are falsy, every other string is truthy. -/
def pyTruthy : Option String → Bool
  | none => false
  | some a => a != ""

/-- `AetheroMonitor.get_agent_metrics(agent_id=None)`: the guard
`if agent_id:` is Python truthiness, so `None` *and* the empty string take
the all-agents branch `{aid: metrics.to_dict() for ...}`; a truthy id is
read through `self.agent_metrics.get(agent_id, {}).to_dict()`, whose `.get`
default has no `to_dict` and raises `AttributeError` for an unknown id. -/
def get_agent_metrics (d : List (String × AgentMetrics))
    (agent_id : Option String) : GetMetricsResult :=
  if pyTruthy agent_id then
    match d.lookup (agent_id.getD "") with
    | some m => .single m
    | none => .attrError "AttributeError: dict object has no attribute to_dict"
  else .all d

end Monitor

namespace AgentBus

/-- The `Message` dataclass of `agent_bus.py`, with content and tag payload
types abstract and the timestamp as an explicit argument. -/
structure Message (C T : Type) where
  topic : String
  content : C
  asl_tags : T
  timestamp : String
deriving DecidableEq

/-- A callback subscriber registered through `add_subscriber`: an identity
(its registration order) and its behaviour on a message — returning
normally or raising. -/
structure Callback (C T : Type) where
  id : Nat
  run : Message C T → Except String Unit

/-- The mutable state of an `AgentBus`: `topics` maps a topic to the list of
subscriber queues (each queue is its current content, front = next to be
received), `subscribers` maps a topic to its callback list, and
`message_history` maps a topic to its append-only history. -/
structure Bus (C T : Type) where
  topics : List (String × List (List (Message C T)))
  subscribers : List (String × List (Callback C T))
  message_history : List (String × List (Message C T))

/-- The fresh bus built by `AgentBus.__init__`. -/
def Bus.empty (C T : Type) : Bus C T := ⟨[], [], []⟩

/-- `AgentBus.subscribe`: ensure the topic has a queue list, append a fresh
empty queue, and hand the new queue (identified by its index in the topic's
queue list) to the subscriber. -/
def subscribe {C T : Type} (bus : Bus C T) (topic : String) :
    Bus C T × Nat :=
  let qs := (bus.topics.lookup topic).getD []
  ({ bus with topics := PyDict.dictSet bus.topics topic (qs ++ [[]]) },
    qs.length)

/-- `AgentBus.add_subscriber`: append a callback to the topic's list. -/
def add_subscriber {C T : Type} (bus : Bus C T) (topic : String)
    (cb : Callback C T) : Bus C T :=
  let cbs := (bus.subscribers.lookup topic).getD []
  { bus with subscribers := PyDict.dictSet bus.subscribers topic (cbs ++ [cb]) }

/-- `AgentBus.publish`: build the message, append it to the topic's history,
put it into every queue of the topic, then invoke every callback subscriber
in registration order, catching and logging each callback's failure.
Returns the new bus state, the list of callback invocations performed (id
and outcome, in order), and the error lines logged for failed callbacks.
Nothing in the body can raise once callback failures are caught, so the
function is total — the outer `except/raise` of the source is dead. -/
def publish {C T : Type} (bus : Bus C T) (topic : String) (content : C)
    (asl_tags : T) (now : String) :
    Bus C T × List (Nat × Except String Unit) × List String :=
  let msg : Message C T := ⟨topic, content, asl_tags, now⟩
  let hist := (bus.message_history.lookup topic).getD []
  let history2 := PyDict.dictSet bus.message_history topic (hist ++ [msg])
  let topics2 :=
    match bus.topics.lookup topic with
    | none => bus.topics
    | some qs => PyDict.dictSet bus.topics topic (qs.map (fun q => q ++ [msg]))
  let cbs := (bus.subscribers.lookup topic).getD []
  let invocations := cbs.map (fun cb => (cb.id, cb.run msg))
  let logged := invocations.filterMap (fun r =>
    match r.2 with
    | .error e => some ("Subscriber callback failed: " ++ e)
    | .ok _ => none)
  ({ bus with message_history := history2, topics := topics2 },
    invocations, logged)

/-- `AgentBus.get_history`: the topic's history, truncated to the last
`limit` messages when `limit` is truthy (Python `if limit:` — `None` and
`0` both mean "all"). -/
def get_history {C T : Type} (bus : Bus C T) (topic : String)
    (limit : Option Nat) : List (Message C T) :=
  match bus.message_history.lookup topic with
  | none => []
  | some messages =>
    match limit with
    | some n =>
      if n ≠ 0 then messages.drop (messages.length - n) else messages
    | none => messages

/-- The content of the `i`-th subscriber queue of a topic. -/
def queueAt {C T : Type} (bus : Bus C T) (topic : String) (i : Nat) :
    Option (List (Message C T)) :=
  ((bus.topics.lookup topic).getD [])[i]?

end AgentBus

namespace Bootstrap

/-- The `additional_data` entry of a lifecycle log unit: `{"input": ...}`
for `task_started`, `{"output": ...}` for `task_completed`, and
`{"error": ..., "task_data": ..., "asl_context": ...}` for `task_failed`. -/
inductive AdditionalData (τ κ ρ : Type) where
  | input (task_data : τ)
  | output (result : ρ)
  | failure (error : String) (task_data : τ) (asl_context : κ)

/-- `ASLLogUnit` of the bootstrap module, as filled in by
`_log_task_event`: the metadata dictionary is flattened into its `task_id`
entry and the optional `additional_data` entry. -/
structure ASLLogUnit (τ κ ρ : Type) where
  timestamp : String
  pipeline_id : String
  agent_id : String
  status : String
  task_id : String
  additional_data : Option (AdditionalData τ κ ρ)

/-- One enriched message stored by the bootstrap `MessageBus.publish`. -/
structure Enriched (κ ρ : Type) where
  content : ρ
  asl_tags : κ
  timestamp : String

/-- The bootstrap module's local `MessageBus` state: topic → message list. -/
structure MessageBus (κ ρ : Type) where
  topics : List (String × List (Enriched κ ρ))

/-- Bootstrap `MessageBus.publish`: ensure the topic's list exists, then
append the enriched message `{content, asl_tags, timestamp}`. -/
def MessageBus.publish {κ ρ : Type} (bus : MessageBus κ ρ) (topic : String)
    (message : ρ) (asl_tags : κ) (now : String) : MessageBus κ ρ :=
  let msgs := (bus.topics.lookup topic).getD []
  ⟨PyDict.dictSet bus.topics topic (msgs ++ [⟨message, asl_tags, now⟩])⟩

/-- A `BaseAetheroAgent`: its fixed identity, the `pipeline_id` entry of
its configuration (the only configuration key the lifecycle reads, through
`config.get("pipeline_id", "default")`), and its message bus. -/
structure Agent (κ ρ : Type) where
  agent_id : String
  config_pipeline_id : Option String
  message_bus : MessageBus κ ρ

/-- `_create_log_unit` composed with `_log_task_event`: build the log unit
for one lifecycle event. -/
def logTaskEvent {τ κ ρ : Type} (agent : Agent κ ρ)
    (event_type task_id : String)
    (additional_data : Option (AdditionalData τ κ ρ)) (now : String) :
    ASLLogUnit τ κ ρ :=
  { timestamp := now
    pipeline_id := agent.config_pipeline_id.getD "default"
    agent_id := agent.agent_id
    status := event_type
    task_id := task_id
    additional_data := additional_data }

/-- `BaseAetheroAgent.execute_task`: derive the task id (`task_data`'s
`task_id` entry, else the current time), log `task_started`, run the
abstract `process_task`; on success log `task_completed`, publish the
result to `"{agent_id}_output"` tagged with the caller's `asl_context`,
and return the result; on failure log `task_failed` (carrying the
stringified error, the task data and the context) and re-raise.  Returns
the propagated result, the updated agent and the emitted log units in
order. -/
def execute_task {τ κ ρ : Type} (agent : Agent κ ρ)
    (process_task : τ → κ → Except String ρ)
    (task_data : τ) (asl_context : κ)
    (get_task_id : τ → Option String) (now : String) :
    Except String ρ × Agent κ ρ × List (ASLLogUnit τ κ ρ) :=
  let task_id := (get_task_id task_data).getD now
  let started := logTaskEvent agent "task_started" task_id
    (some (.input task_data)) now
  match process_task task_data asl_context with
  | .ok result =>
    let completed := logTaskEvent agent "task_completed" task_id
      (some (.output result)) now
    let bus2 := agent.message_bus.publish (agent.agent_id ++ "_output")
      result asl_context now
    (.ok result, { agent with message_bus := bus2 }, [started, completed])
  | .error e =>
    let failed := logTaskEvent agent "task_failed" task_id
      (some (.failure e task_data asl_context)) now
    (.error e, agent, [started, failed])

end Bootstrap

namespace ASL

/-- Python `str.strip` whitespace (ASCII reading of `str.isspace`). -/
def pySpace (c : Char) : Bool :=
  c = ' ' || c = '\t' || c = '\n' || c = '\r' || c = '\x0b' || c = '\x0c'

/-- Python `str.strip()`: drop whitespace from both ends. -/
def pyStrip (s : List Char) : List Char :=
  ((s.dropWhile pySpace).reverse.dropWhile pySpace).reverse

/-- Python `str.isdigit` (ASCII reading): nonempty and all decimal
digits. -/
def pyIsdigit (s : List Char) : Bool :=
  !s.isEmpty && s.all (fun c => '0' ≤ c && c ≤ '9')

/-- Python `str.lower` (ASCII). -/
def pyLower (s : List Char) : List Char := s.map Char.toLower

/-- Python `int(...)` on a decimal digit string. -/
def natOfDigits (s : List Char) : Nat :=
  s.foldl (fun n c => 10 * n + (c.toNat - '0'.toNat)) 0

/-- Python `float(...)` on a string made of digits and dots with at least
one dot and at least one digit: defined exactly when there is a single dot
(`float("1.2.3")` raises `ValueError`); the float is modelled as the exact
rational it denotes in decimal. -/
def pyFloat (s : List Char) : Option ℚ :=
  match s.splitOn '.' with
  | [ip, fp] =>
    some (mkRat (natOfDigits ip * 10 ^ fp.length + natOfDigits fp)
      (10 ^ fp.length))
  | _ => none

/-- The runtime type of a coerced tag value. -/
inductive Value where
  | str (s : List Char)
  | int (n : Nat)
  | float (q : ℚ)
  | bool (b : Bool)
deriving DecidableEq

/-- Strip one layer of matching quotes (`value[1:-1]`), in the source's
order: single quotes first, then double quotes, else keep the raw string.
As in Python, a one-character quote string both starts and ends with the
quote and strips to the empty string. -/
def stripQuotes (v : List Char) : List Char :=
  if v.head? = some '\'' && v.getLast? = some '\'' then
    (v.drop 1).dropLast
  else if v.head? = some '"' && v.getLast? = some '"' then
    (v.drop 1).dropLast
  else v

/-- The value-coercion chain of `ASLParser.parse`, in source order: numeric
literal first (`int` when there is no decimal point, else `float`, whose
`ValueError` on a malformed literal such as `1.2.3` is caught by the inner
`except ValueError` and falls back to the quote check), then
case-insensitive boolean literals, then quoted strings, then the raw
string. -/
def coerceValue (v : List Char) : Value :=
  if pyIsdigit (v.filter (fun c => c ≠ '.')) then
    if v.contains '.' then
      match pyFloat v with
      | some q => .float q
      | none => .str (stripQuotes v)
    else .int (natOfDigits v)
  else if pyLower v = "true".toList then .bool true
  else if pyLower v = "false".toList then .bool false
  else .str (stripQuotes v)

/-- Whether the numeric coercion of a (stripped) value raises `ValueError`:
the digits-and-dots guard passed, a dot is present, and `float()` rejects
the literal (more than one dot). -/
def coercionRaises (v : List Char) : Bool :=
  pyIsdigit (v.filter (fun c => c ≠ '.')) && v.contains '.' &&
    (pyFloat v).isNone

/-- The stripped text before the first colon of a comma-segment:
`pair.split(':', 1)[0].strip()`. -/
def pairKey (pair : List Char) : List Char :=
  pyStrip (pair.takeWhile (fun c => c ≠ ':'))

/-- The stripped text after the first colon of a comma-segment:
`pair.split(':', 1)[1].strip()`. -/
def pairValueRaw (pair : List Char) : List Char :=
  pyStrip ((pair.dropWhile (fun c => c ≠ ':')).drop 1)

/-- One comma-segment of a block: the `if ':' in pair` guard, then
`pair.split(':', 1)`, per-component `strip`, and value coercion. -/
def parsePair (pair : List Char) : Option (List Char × Value) :=
  if pair.contains ':' then
    some (pairKey pair, coerceValue (pairValueRaw pair))
  else none

/-- Python-dict insert on the per-block `tag_dict` (keys are strings of the
block; an existing key keeps its position, a new key is appended). -/
def tagDictSet : List (List Char × Value) → List Char → Value →
    List (List Char × Value)
  | [], k, v => [(k, v)]
  | p :: rest, k, v =>
    if p.1 = k then (k, v) :: rest else p :: tagDictSet rest k v

/-- One step of the `for pair in pairs` loop: segments without a colon are
skipped. -/
def tagStep (d : List (List Char × Value)) (pair : List Char) :
    List (List Char × Value) :=
  match parsePair pair with
  | some (k, v) => tagDictSet d k v
  | none => d

/-- The `tag_dict` built for one block from its (already stripped) group
content: split on commas, strip each segment, fold through the pair
parser. -/
def tagDict (tag_content : List Char) : List (List Char × Value) :=
  ((tag_content.splitOn ',').map pyStrip).foldl tagStep []

/-- One regex match of `{([^}]+)}`: the group content and the match's
`start()` and `end()` offsets (`stop` models the source's `end`, a Lean
keyword). -/
structure Block where
  content : List Char
  start : Nat
  stop : Nat
deriving DecidableEq

/-- The scanner behind `re.finditer(r'{([^}]+)}', content)`, one character
at a time: outside a match candidate (`st = none`) a `{` opens a candidate
at the current offset; inside a candidate (`st = some (s, acc)`, where `s`
is the offset of its `{` and `acc` the group collected so far) any
character other than `}` extends the greedy `[^}]+` group (a nested `{` is
ordinary group content), and a `}` closes it — emitting the match when the
group is nonempty (with `end = ` offset after the `}`), and failing the
candidate when it is empty, in which case scanning resumes at the `}`
itself, which cannot open a new candidate.  A candidate still open at the
end of input matches nothing, and no later `{` could match either since no
`}` follows.  `i` is the offset of the current character. -/
def findBlocksAux : List Char → Nat → Option (Nat × List Char) → List Block
  | [], _, _ => []
  | c :: rest, i, none =>
    if c = '{' then findBlocksAux rest (i + 1) (some (i, []))
    else findBlocksAux rest (i + 1) none
  | c :: rest, i, some (s, acc) =>
    if c = '}' then
      if acc.isEmpty then findBlocksAux rest (i + 1) none
      else ⟨acc, s, i + 1⟩ :: findBlocksAux rest (i + 1) none
    else findBlocksAux rest (i + 1) (some (s, acc ++ [c]))

/-- All matches of `re.finditer(r'{([^}]+)}', content)` in order. -/
def findBlocks (content : List Char) : List Block :=
  findBlocksAux content 0 none

/-- The `position` dictionary attached to every tag of a block (`stop`
models the source's `end` key): match offsets plus the 1-based line number
obtained by counting newlines before the block start. -/
structure Position where
  start : Nat
  stop : Nat
  line : Nat
deriving DecidableEq

/-- A parsed `ASLTag` (its creation timestamp, `datetime.now`, is not
modelled; no claim concerns it). -/
structure ASLTag where
  tag_name : List Char
  value : Value
  position : Position
deriving DecidableEq

/-- The position of a block inside `content`. -/
def blockPos (content : List Char) (b : Block) : Position :=
  ⟨b.start, b.stop, (content.take b.start).count '\n' + 1⟩

/-- The tags contributed by one block: one tag per `tag_dict` entry, in
insertion order, all sharing the block's position. -/
def blockTags (content : List Char) (b : Block) : List ASLTag :=
  (tagDict (pyStrip b.content)).map
    (fun kv => ⟨kv.1, kv.2, blockPos content b⟩)

/-- `ASLParser.parse`: all tags of all blocks, in block order. -/
def parse (content : List Char) : List ASLTag :=
  (findBlocks content).flatMap (fun b => blockTags content b)

/-- A block content is well-formed with `k` key/value pairs when, after the
group strip and the comma split, there are `k` stripped segments, each
containing a colon, with pairwise distinct stripped keys. -/
def WellFormedBlock (bcontent : List Char) (k : Nat) : Prop :=
  let pairs := ((pyStrip bcontent).splitOn ',').map pyStrip
  pairs.length = k ∧ (∀ p ∈ pairs, p.contains ':' = true) ∧
    (pairs.map pairKey).Nodup

instance (bcontent : List Char) (k : Nat) :
    Decidable (WellFormedBlock bcontent k) := by
  unfold WellFormedBlock
  exact instDecidableAnd

end ASL

theorem dictSet_lookup {α : Type} (d : List (String × α)) (k : String) (v : α)
    (j : String) :
    (PyDict.dictSet d k v).lookup j = if j = k then some v else d.lookup j := by
  induction d with
  | nil =>
    by_cases hjk : j = k
    · simp [PyDict.dictSet, List.lookup, hjk]
    · have hb : (j == k) = false := beq_eq_false_iff_ne.mpr hjk
      simp [PyDict.dictSet, List.lookup, hb, hjk]
  | cons p rest ih =>
    by_cases hpk : p.1 = k
    · by_cases hjk : j = k
      · have hb : (j == k) = true := beq_iff_eq.mpr hjk
        simp [PyDict.dictSet, hpk, List.lookup, hb, hjk]
      · have hb : (j == k) = false := beq_eq_false_iff_ne.mpr hjk
        simp [PyDict.dictSet, hpk, List.lookup, hb, hjk]
    · by_cases hjp : j = p.1
      · have hjk : ¬ j = k := fun h => hpk (h ▸ hjp).symm
        have hb : (j == p.1) = true := beq_iff_eq.mpr hjp
        have hb2 : (j == k) = false := beq_eq_false_iff_ne.mpr hjk
        simp [PyDict.dictSet, hpk, List.lookup, hb, hb2, hjk]
      · have hb : (j == p.1) = false := beq_eq_false_iff_ne.mpr hjp
        by_cases hjk : j = k
        · subst hjk
          simp [PyDict.dictSet, hpk, List.lookup, hb, ih]
        · simp [PyDict.dictSet, hpk, List.lookup, hb, hjk, ih]

theorem applyUpdates_foldl_lookup (ops : List Monitor.UpdateOp)
    (d : List (String × Monitor.AgentMetrics)) (j : String) :
    (ops.foldl (fun d op => PyDict.dictSet d op.agent_id
        (Monitor.buildAgentMetrics op.agent_id op.metrics op.now)) d).lookup j =
      match ops.reverse.find? (fun o => o.agent_id == j) with
      | some op => some (Monitor.buildAgentMetrics op.agent_id op.metrics op.now)
      | none => d.lookup j := by
  induction ops generalizing d with
  | nil => simp
  | cons op rest ih =>
    simp only [List.foldl_cons, List.reverse_cons, List.find?_append]
    rw [ih]
    cases hfind : rest.reverse.find? (fun o => o.agent_id == j) with
    | some o => simp [Option.or]
    | none =>
      by_cases hoj : op.agent_id = j
      · have hb : (op.agent_id == j) = true := beq_iff_eq.mpr hoj
        simp [List.find?, hb, dictSet_lookup, hoj]
      · have hb : (op.agent_id == j) = false := beq_eq_false_iff_ne.mpr hoj
        simp [List.find?, hb, dictSet_lookup, Ne.symm hoj]

/-- C2 counterexample: with the retry policy `{max_retries: 3, delay: 1}`,
the fourth failure (retry count 3) returns the terminal error outcome, but
its message is the source's literal `"Max retries exceeded"`, not
`"max retries exceeded"` as the claim states. -/
theorem c2_counterexample :
    (ErrorHandler.handle_retry ⟨3, 1⟩ 3 "t1" "a1").2.errorMessage =
        some "Max retries exceeded" ∧
    (ErrorHandler.handle_retry ⟨3, 1⟩ 3 "t1" "a1").2.errorMessage ≠
        some "max retries exceeded" := by
  constructor <;> decide

/-- C2 (amended): for the retry policy `{max_retries: 3, delay: 1}`,
`_handle_retry` on a failure with retry count `r < 3` sleeps
`1 * 2 ^ r` (so successive attempts wait 1, 2, 4) and returns a retry
outcome with retry count `r + 1`; on the fourth failure (retry count 3) it
returns the terminal error outcome whose message is
`"Max retries exceeded"` (capitalized as in the source). -/
theorem c2_retry_policy (r : Nat) (t a : String) :
    (r < 3 →
      ErrorHandler.handle_retry ⟨3, 1⟩ r t a =
        (some (2 ^ r), .retry (r + 1) (2 ^ (r + 1)) t)) ∧
    ErrorHandler.handle_retry ⟨3, 1⟩ 3 t a =
      (none, .error "Max retries exceeded" t a) := by
  constructor
  · intro hr
    simp [ErrorHandler.handle_retry, hr, pow_succ]
  · simp [ErrorHandler.handle_retry]

/-- Witness for C2 (amended): the third failed attempt (retry count 2)
sleeps 4 and schedules retry number 3. -/
theorem c2_witness :
    ErrorHandler.handle_retry ⟨3, 1⟩ 2 "t1" "a1" =
      (some 4, .retry 3 8 "t1") := by
  have h := (c2_retry_policy 2 "t1" "a1").1 (by norm_num)
  rw [h]
  decide

/-- C7: for every retry policy and every retry count `r` below the maximum,
the advisory `next_retry_delay` returned by the retry decision equals
`delay * 2 ^ (r + 1)`, which is exactly the delay the handler itself sleeps
on the next call with retry count `r + 1` (whenever that next call still
retries) — trusting `next_retry_delay` and recomputing from the formula
agree. -/
theorem c7_next_retry_delay (policy : ErrorHandler.RetryPolicy) (r : Nat)
    (t a t2 a2 : String) (h : r < policy.max_retries) :
    (ErrorHandler.handle_retry policy r t a).2.nextRetryDelay =
      some (policy.delay * 2 ^ (r + 1)) ∧
    (r + 1 < policy.max_retries →
      (ErrorHandler.handle_retry policy (r + 1) t2 a2).1 =
        some (policy.delay * 2 ^ (r + 1))) := by
  constructor
  · simp [ErrorHandler.handle_retry, h,
      ErrorHandler.RetryOutcome.nextRetryDelay, pow_succ, mul_assoc]
  · intro h2
    simp [ErrorHandler.handle_retry, h2]

/-- Witness for C7: policy `{max_retries: 3, delay: 1}` at retry count 0
advertises `next_retry_delay = 2`, and the next call (retry count 1) indeed
sleeps 2. -/
theorem c7_witness :
    (ErrorHandler.handle_retry ⟨3, 1⟩ 0 "t" "a").2.nextRetryDelay = some 2 ∧
    (ErrorHandler.handle_retry ⟨3, 1⟩ 1 "t" "a").1 = some 2 := by
  have h := c7_next_retry_delay ⟨3, 1⟩ 0 "t" "a" "t" "a" (by norm_num)
  have e : ({ max_retries := 3, delay := 1 } :
      ErrorHandler.RetryPolicy).delay * 2 ^ (0 + 1) = 2 := by norm_num
  exact ⟨h.1.trans (by rw [e]), (h.2 (by norm_num)).trans (by rw [e])⟩

/-- C8: with the default thresholds (CPU threshold 80) and exactly one
registered alert callback, evaluating a sample with `cpu_percent` 85 (memory
and disk below their thresholds) invokes the callback exactly once, with an
alerts list containing the message `"High CPU usage: 85%"` (mentioning CPU
usage); evaluating a sample with `cpu_percent` 50 invokes no callback. -/
theorem c8_cpu_alert (cb : Nat) (now ts : String) :
    Monitor.check_alerts_invocations Monitor.defaultThresholds [cb]
        ⟨85, 50, ⟨100, 50, 50, 50⟩, ts⟩ now =
      [(cb, ⟨now, ["High CPU usage: 85%"], ⟨85, 50, ⟨100, 50, 50, 50⟩, ts⟩⟩)] ∧
    Monitor.check_alerts_invocations Monitor.defaultThresholds [cb]
        ⟨50, 50, ⟨100, 50, 50, 50⟩, ts⟩ now = [] :=
  ⟨rfl, rfl⟩

/-- C10 counterexample: the claim quantifies over every agent id, but the
empty string is falsy for the source's `if agent_id:` guard, so on a
monitor with one stored agent, `get_agent_metrics("")` — `""` never having
been updated — returns the all-agents dictionary and does not fail with
the `AttributeError` the claim requires of every never-updated id. -/
theorem c10_counterexample :
    ("" ∉ ([⟨"a1", ⟨some "active", some 10, some 0, some 1, some "L1",
        some 45, some 12⟩, "T1"⟩] : List Monitor.UpdateOp).map
        Monitor.UpdateOp.agent_id) ∧
    Monitor.get_agent_metrics (Monitor.applyUpdates
        [⟨"a1", ⟨some "active", some 10, some 0, some 1, some "L1",
          some 45, some 12⟩, "T1"⟩]) (some "") =
      .all (Monitor.applyUpdates
        [⟨"a1", ⟨some "active", some 10, some 0, some 1, some "L1",
          some 45, some 12⟩, "T1"⟩]) ∧
    Monitor.get_agent_metrics (Monitor.applyUpdates
        [⟨"a1", ⟨some "active", some 10, some 0, some 1, some "L1",
          some 45, some 12⟩, "T1"⟩]) (some "") ≠
      .attrError "AttributeError: dict object has no attribute to_dict" :=
  ⟨by decide, rfl, by decide⟩

/-- C10 (amended): starting from a fresh monitor, after any sequence of
`update_agent_metrics` calls, for every truthy (nonempty) agent id:
(1) `get_agent_metrics(agent_id)` for an id never updated raises (the
empty-dict `.get` default has no `to_dict`); (2) for an updated id it
returns the record built from the last update for that id.  (3) The
no-argument `get_agent_metrics()` never fails and returns the dictionary
whose keys are exactly the updated agent identifiers (a falsy id such as
`""` takes this same all-agents branch, by Python truthiness). -/
theorem c10_agent_metrics_access (ops : List Monitor.UpdateOp)
    (agent_id : String) (hne : agent_id ≠ "") :
    (agent_id ∉ ops.map Monitor.UpdateOp.agent_id →
      Monitor.get_agent_metrics (Monitor.applyUpdates ops) (some agent_id) =
        .attrError "AttributeError: dict object has no attribute to_dict") ∧
    (∀ op, ops.reverse.find? (fun o => o.agent_id == agent_id) = some op →
      Monitor.get_agent_metrics (Monitor.applyUpdates ops) (some agent_id) =
        .single (Monitor.buildAgentMetrics op.agent_id op.metrics op.now)) ∧
    Monitor.get_agent_metrics (Monitor.applyUpdates ops) none =
      .all (Monitor.applyUpdates ops) ∧
    (∀ j, (Monitor.applyUpdates ops).lookup j ≠ none ↔
      j ∈ ops.map Monitor.UpdateOp.agent_id) := by
  have ht : Monitor.pyTruthy (some agent_id) = true := by
    simp [Monitor.pyTruthy, hne]
  refine ⟨fun hmem => ?_, fun op hop => ?_, rfl, fun j => ?_⟩
  · have hfind : ops.reverse.find? (fun o => o.agent_id == agent_id) = none := by
      rw [List.find?_eq_none]
      intro o ho
      simp only [beq_iff_eq]
      intro he
      exact hmem (List.mem_map.mpr ⟨o, List.mem_reverse.mp ho, he⟩)
    unfold Monitor.get_agent_metrics Monitor.applyUpdates
    rw [if_pos ht]
    simp only [Option.getD_some]
    rw [applyUpdates_foldl_lookup, hfind]
    rfl
  · unfold Monitor.get_agent_metrics Monitor.applyUpdates
    rw [if_pos ht]
    simp only [Option.getD_some]
    rw [applyUpdates_foldl_lookup, hop]
  · unfold Monitor.applyUpdates
    rw [applyUpdates_foldl_lookup]
    cases hfind : ops.reverse.find? (fun o => o.agent_id == j) with
    | some o =>
      simp only [ne_eq, reduceCtorEq, not_false_eq_true, true_iff]
      have hmemo := List.mem_of_find?_eq_some hfind
      have hpo := List.find?_some hfind
      exact List.mem_map.mpr ⟨o, List.mem_reverse.mp hmemo, beq_iff_eq.mp hpo⟩
    | none =>
      simp only [List.lookup, ne_eq, not_true_eq_false, false_iff]
      intro hj
      obtain ⟨o, ho, he⟩ := List.mem_map.mp hj
      exact (List.find?_eq_none.mp hfind) o (List.mem_reverse.mpr ho)
        (beq_iff_eq.mpr he)

/-- Witness for C10 (amended): after two updates to agent `"a1"`, reading
`"a1"` returns the second snapshot, and reading the never-updated `"zz"`
raises the `AttributeError`. -/
theorem c10_witness :
    Monitor.get_agent_metrics
        (Monitor.applyUpdates
          [⟨"a1", ⟨some "active", some 10, some 0, some 1, some "L1",
              some 45, some 12⟩, "T1"⟩,
           ⟨"a1", ⟨some "idle", some 11, none, none, some "L2",
              none, none⟩, "T3"⟩]) (some "a1") =
      .single ⟨"a1", "idle", 11, 0, 0, "L2", 0, 0⟩ ∧
    Monitor.get_agent_metrics
        (Monitor.applyUpdates
          [⟨"a1", ⟨some "active", some 10, some 0, some 1, some "L1",
              some 45, some 12⟩, "T1"⟩,
           ⟨"a1", ⟨some "idle", some 11, none, none, some "L2",
              none, none⟩, "T3"⟩]) (some "zz") =
      .attrError "AttributeError: dict object has no attribute to_dict" := by
  constructor
  · have h := (c10_agent_metrics_access
      [⟨"a1", ⟨some "active", some 10, some 0, some 1, some "L1",
          some 45, some 12⟩, "T1"⟩,
       ⟨"a1", ⟨some "idle", some 11, none, none, some "L2",
          none, none⟩, "T3"⟩] "a1" (by decide)).2.1
      ⟨"a1", ⟨some "idle", some 11, none, none, some "L2", none, none⟩, "T3"⟩
      (by rfl)
    exact h.trans (by rfl)
  · exact (c10_agent_metrics_access
      [⟨"a1", ⟨some "active", some 10, some 0, some 1, some "L1",
          some 45, some 12⟩, "T1"⟩,
       ⟨"a1", ⟨some "idle", some 11, none, none, some "L2",
          none, none⟩, "T3"⟩] "zz" (by decide)).1 (by decide)

theorem publish_history_lookup {C T : Type} (bus : AgentBus.Bus C T)
    (topic : String) (content : C) (tags : T) (now : String) :
    (AgentBus.publish bus topic content tags now).1.message_history.lookup
        topic =
      some ((bus.message_history.lookup topic).getD [] ++
        [⟨topic, content, tags, now⟩]) := by
  unfold AgentBus.publish
  simp [dictSet_lookup]

theorem publish_topics_lookup {C T : Type} (bus : AgentBus.Bus C T)
    (topic : String) (content : C) (tags : T) (now : String) :
    (AgentBus.publish bus topic content tags now).1.topics.lookup topic =
      (bus.topics.lookup topic).map
        (fun qs => qs.map (fun q => q ++ [⟨topic, content, tags, now⟩])) := by
  unfold AgentBus.publish
  cases h : bus.topics.lookup topic with
  | none => simp [h]
  | some qs => simp [h, dictSet_lookup]

/-- C1: on a bus whose history for `topic` is empty, a queue obtained from
`subscribe(topic)` before two publishes of `m1` then `m2` contains exactly
`[m1, m2]` afterwards (FIFO: `m1` is received first), and
`get_history(topic)` returns `[m1, m2]` in publish order. -/
theorem c1_publish_order (C T : Type) (bus : AgentBus.Bus C T)
    (topic : String) (m1 m2 : C) (t1 t2 : T) (ts1 ts2 : String)
    (hhist : (bus.message_history.lookup topic).getD [] = []) :
    AgentBus.queueAt
        ((AgentBus.publish ((AgentBus.publish (AgentBus.subscribe bus topic).1
            topic m1 t1 ts1).1) topic m2 t2 ts2).1)
        topic (AgentBus.subscribe bus topic).2 =
      some [⟨topic, m1, t1, ts1⟩, ⟨topic, m2, t2, ts2⟩] ∧
    AgentBus.get_history
        ((AgentBus.publish ((AgentBus.publish (AgentBus.subscribe bus topic).1
            topic m1 t1 ts1).1) topic m2 t2 ts2).1) topic none =
      [⟨topic, m1, t1, ts1⟩, ⟨topic, m2, t2, ts2⟩] := by
  constructor
  · have h0 : (AgentBus.subscribe bus topic).1.topics.lookup topic =
        some (((bus.topics.lookup topic).getD []) ++ [[]]) := by
      unfold AgentBus.subscribe
      simp [dictSet_lookup]
    have h1 := publish_topics_lookup (AgentBus.subscribe bus topic).1
      topic m1 t1 ts1
    have h2 := publish_topics_lookup
      (AgentBus.publish (AgentBus.subscribe bus topic).1 topic m1 t1 ts1).1
      topic m2 t2 ts2
    have hi : (AgentBus.subscribe bus topic).2 =
        ((bus.topics.lookup topic).getD []).length := rfl
    unfold AgentBus.queueAt
    rw [hi, h2, h1, h0]
    simp [List.getElem?_map, List.getElem?_append_right]
  · have g1 := publish_history_lookup (AgentBus.subscribe bus topic).1
      topic m1 t1 ts1
    have g2 := publish_history_lookup
      (AgentBus.publish (AgentBus.subscribe bus topic).1 topic m1 t1 ts1).1
      topic m2 t2 ts2
    have hsub : (AgentBus.subscribe bus topic).1.message_history =
        bus.message_history := rfl
    unfold AgentBus.get_history
    rw [g2, g1, hsub, hhist]
    simp

/-- Witness for C1: on a fresh bus, subscribe to `"t"`, publish `1` then
`2`; the queue holds both messages in order and so does the history. -/
theorem c1_witness :
    AgentBus.queueAt
        ((AgentBus.publish ((AgentBus.publish
            (AgentBus.subscribe (AgentBus.Bus.empty Nat Nat) "t").1
            "t" 1 10 "T1").1) "t" 2 20 "T2").1)
        "t" (AgentBus.subscribe (AgentBus.Bus.empty Nat Nat) "t").2 =
      some [⟨"t", 1, 10, "T1"⟩, ⟨"t", 2, 20, "T2"⟩] ∧
    AgentBus.get_history
        ((AgentBus.publish ((AgentBus.publish
            (AgentBus.subscribe (AgentBus.Bus.empty Nat Nat) "t").1
            "t" 1 10 "T1").1) "t" 2 20 "T2").1) "t" none =
      [⟨"t", 1, 10, "T1"⟩, ⟨"t", 2, 20, "T2"⟩] :=
  c1_publish_order Nat Nat (AgentBus.Bus.empty Nat Nat) "t" 1 2 10 20
    "T1" "T2" rfl

/-- C5: a callback subscriber that raises on every invocation never
prevents a queue subscriber of the same topic from receiving a published
message, and never prevents the other callbacks from being invoked: every
queue of the topic still receives the message, the invocation list covers
every registered callback in registration order, and the failing callback's
error is caught and logged (`publish` is total — it does not raise because
of a callback failure). -/
theorem c5_callback_isolation (C T : Type) (bus : AgentBus.Bus C T)
    (topic : String) (content : C) (tags : T) (now : String)
    (bad : AgentBus.Callback C T)
    (hbad : bad ∈ (bus.subscribers.lookup topic).getD [])
    (hfails : ∀ m, ∃ e, bad.run m = .error e) :
    (∀ i, AgentBus.queueAt
        (AgentBus.publish bus topic content tags now).1 topic i =
      (AgentBus.queueAt bus topic i).map
        (fun q => q ++ [⟨topic, content, tags, now⟩])) ∧
    (AgentBus.publish bus topic content tags now).2.1 =
      ((bus.subscribers.lookup topic).getD []).map
        (fun cb => (cb.id, cb.run ⟨topic, content, tags, now⟩)) ∧
    (∃ e, bad.run ⟨topic, content, tags, now⟩ = .error e ∧
      ("Subscriber callback failed: " ++ e) ∈
        (AgentBus.publish bus topic content tags now).2.2) := by
  refine ⟨fun i => ?_, rfl, ?_⟩
  · unfold AgentBus.queueAt
    rw [publish_topics_lookup]
    cases h : bus.topics.lookup topic with
    | none => simp
    | some qs => simp [List.getElem?_map]
  · obtain ⟨e, he⟩ := hfails ⟨topic, content, tags, now⟩
    refine ⟨e, he, ?_⟩
    show _ ∈ (((bus.subscribers.lookup topic).getD []).map
      (fun cb => (cb.id, cb.run ⟨topic, content, tags, now⟩))).filterMap _
    apply List.mem_filterMap.mpr
    refine ⟨(bad.id, bad.run ⟨topic, content, tags, now⟩),
      List.mem_map.mpr ⟨bad, hbad, rfl⟩, ?_⟩
    rw [he]

/-- Witness for C5: a bus with one queue subscriber and one
always-raising callback on topic `"t"`; publishing still delivers to the
queue, the callback is invoked, and its failure is logged. -/
theorem c5_witness :
    (AgentBus.publish (AgentBus.add_subscriber
        (AgentBus.subscribe (AgentBus.Bus.empty Nat Nat) "t").1 "t"
        ⟨0, fun _ => Except.error "boom"⟩) "t" 5 7 "T").2.1 =
      [(0, Except.error "boom")] ∧
    AgentBus.queueAt ((AgentBus.publish (AgentBus.add_subscriber
        (AgentBus.subscribe (AgentBus.Bus.empty Nat Nat) "t").1 "t"
        ⟨0, fun _ => Except.error "boom"⟩) "t" 5 7 "T").1) "t" 0 =
      some [⟨"t", 5, 7, "T"⟩] ∧
    "Subscriber callback failed: boom" ∈
      (AgentBus.publish (AgentBus.add_subscriber
        (AgentBus.subscribe (AgentBus.Bus.empty Nat Nat) "t").1 "t"
        ⟨0, fun _ => Except.error "boom"⟩) "t" 5 7 "T").2.2 := by
  have h := c5_callback_isolation Nat Nat (AgentBus.add_subscriber
      (AgentBus.subscribe (AgentBus.Bus.empty Nat Nat) "t").1 "t"
      ⟨0, fun _ => Except.error "boom"⟩) "t" 5 7 "T"
      ⟨0, fun _ => Except.error "boom"⟩
      (List.mem_singleton.mpr rfl) (fun _ => ⟨"boom", rfl⟩)
  refine ⟨h.2.1.trans (by rfl), (h.1 0).trans (by rfl), ?_⟩
  obtain ⟨e, he, hmem⟩ := h.2.2
  have hb : e = "boom" := (Except.error.inj he).symm
  rw [hb] at hmem
  exact hmem

/-- C4: `execute_task` raises exactly when `process_task` raises (its result
is exactly the `process_task` result); on failure it emits the
`task_failed` log unit carrying the error, the task data and the context
before re-raising, and leaves the message bus unchanged; on success it
emits the `task_completed` log unit, publishes the result to topic
`"{agent_id}_output"` tagged with the caller-supplied annotations, and
returns the result. -/
theorem c4_execute_task_lifecycle (τ κ ρ : Type) (agent : Bootstrap.Agent κ ρ)
    (process_task : τ → κ → Except String ρ) (task_data : τ)
    (asl_context : κ) (get_task_id : τ → Option String) (now : String) :
    (Bootstrap.execute_task agent process_task task_data asl_context
        get_task_id now).1 = process_task task_data asl_context ∧
    (∀ e, process_task task_data asl_context = .error e →
      (Bootstrap.execute_task agent process_task task_data asl_context
          get_task_id now).2.1 = agent ∧
      (Bootstrap.execute_task agent process_task task_data asl_context
          get_task_id now).2.2 =
        [Bootstrap.logTaskEvent agent "task_started"
            ((get_task_id task_data).getD now) (some (.input task_data)) now,
         Bootstrap.logTaskEvent agent "task_failed"
            ((get_task_id task_data).getD now)
            (some (.failure e task_data asl_context)) now]) ∧
    (∀ r, process_task task_data asl_context = .ok r →
      (Bootstrap.execute_task agent process_task task_data asl_context
          get_task_id now).2.2 =
        [Bootstrap.logTaskEvent agent "task_started"
            ((get_task_id task_data).getD now) (some (.input task_data)) now,
         Bootstrap.logTaskEvent agent "task_completed"
            ((get_task_id task_data).getD now) (some (.output r)) now] ∧
      (Bootstrap.execute_task agent process_task task_data asl_context
          get_task_id now).2.1.message_bus.topics.lookup
          (agent.agent_id ++ "_output") =
        some ((agent.message_bus.topics.lookup
            (agent.agent_id ++ "_output")).getD [] ++
          [⟨r, asl_context, now⟩])) := by
  refine ⟨?_, fun e he => ?_, fun r hr => ?_⟩
  · unfold Bootstrap.execute_task
    cases h : process_task task_data asl_context <;> simp [h]
  · unfold Bootstrap.execute_task
    simp [he]
  · unfold Bootstrap.execute_task
    simp [hr, Bootstrap.MessageBus.publish, dictSet_lookup]

/-- Witness for C4: a succeeding task is published to `"ag_output"` and
returned; a failing task leaves the agent (and its bus) unchanged and logs
`task_failed`. -/
theorem c4_witness :
    (Bootstrap.execute_task (⟨"ag", none, ⟨[]⟩⟩ : Bootstrap.Agent Nat Nat)
        (fun t c => .ok (t + c)) 3 4 (fun _ => some "tid") "T").1 =
      .ok 7 ∧
    (Bootstrap.execute_task (⟨"ag", none, ⟨[]⟩⟩ : Bootstrap.Agent Nat Nat)
        (fun t c => .ok (t + c)) 3 4 (fun _ => some "tid")
        "T").2.1.message_bus.topics.lookup "ag_output" =
      some [⟨7, 4, "T"⟩] ∧
    (Bootstrap.execute_task (⟨"ag", none, ⟨[]⟩⟩ : Bootstrap.Agent Nat Nat)
        (fun _ _ => .error "boom") 3 4 (fun _ => some "tid") "T").2.1 =
      ⟨"ag", none, ⟨[]⟩⟩ ∧
    (Bootstrap.execute_task (⟨"ag", none, ⟨[]⟩⟩ : Bootstrap.Agent Nat Nat)
        (fun _ _ => .error "boom") 3 4 (fun _ => some "tid")
        "T").2.2.map Bootstrap.ASLLogUnit.status =
      ["task_started", "task_failed"] := by
  have hs := c4_execute_task_lifecycle Nat Nat Nat ⟨"ag", none, ⟨[]⟩⟩
    (fun t c => .ok (t + c)) 3 4 (fun _ => some "tid") "T"
  have hf := c4_execute_task_lifecycle Nat Nat Nat ⟨"ag", none, ⟨[]⟩⟩
    (fun _ _ => .error "boom") 3 4 (fun _ => some "tid") "T"
  refine ⟨hs.1.trans rfl, ?_, (hf.2.1 "boom" rfl).1, ?_⟩
  · exact ((hs.2.2 7 rfl).2).trans (by rfl)
  · rw [(hf.2.1 "boom" rfl).2]
    rfl

theorem tagDictSet_fresh_keys (d : List (List Char × ASL.Value))
    (k : List Char) (v : ASL.Value) (h : k ∉ d.map Prod.fst) :
    (ASL.tagDictSet d k v).map Prod.fst = d.map Prod.fst ++ [k] := by
  induction d with
  | nil => simp [ASL.tagDictSet]
  | cons p rest ih =>
    simp only [List.map_cons, List.mem_cons, not_or] at h
    simp [ASL.tagDictSet, Ne.symm h.1, ih h.2]

theorem tagDict_foldl_keys (pairs : List (List Char)) :
    ∀ d : List (List Char × ASL.Value),
      (∀ p ∈ pairs, p.contains ':' = true) →
      (pairs.map ASL.pairKey).Nodup →
      (∀ p ∈ pairs, ASL.pairKey p ∉ d.map Prod.fst) →
      (pairs.foldl ASL.tagStep d).map Prod.fst =
        d.map Prod.fst ++ pairs.map ASL.pairKey := by
  induction pairs with
  | nil => intro d _ _ _; simp
  | cons pair rest ih =>
    intro d hcolon hnodup hfresh
    have hc : pair.contains ':' = true :=
      hcolon pair (List.mem_cons_self _ _)
    have hstep : ASL.tagStep d pair =
        ASL.tagDictSet d (ASL.pairKey pair)
          (ASL.coerceValue (ASL.pairValueRaw pair)) := by
      unfold ASL.tagStep ASL.parsePair
      rw [if_pos hc]
    have hkfresh : ASL.pairKey pair ∉ d.map Prod.fst :=
      hfresh pair (List.mem_cons_self _ _)
    have hkeys := tagDictSet_fresh_keys d (ASL.pairKey pair)
      (ASL.coerceValue (ASL.pairValueRaw pair)) hkfresh
    simp only [List.map_cons, List.nodup_cons] at hnodup
    rw [List.foldl_cons, hstep,
      ih _ (fun p hp => hcolon p (List.mem_cons_of_mem _ hp)) hnodup.2 ?_,
      hkeys]
    · simp
    · intro p hp
      rw [hkeys]
      simp only [List.mem_append, List.mem_singleton, not_or]
      refine ⟨hfresh p (List.mem_cons_of_mem _ hp), fun he => ?_⟩
      exact hnodup.1 (he ▸ List.mem_map_of_mem ASL.pairKey hp)

theorem tagDict_length (bcontent : List Char) (k : Nat)
    (h : ASL.WellFormedBlock bcontent k) :
    (ASL.tagDict (ASL.pyStrip bcontent)).length = k := by
  obtain ⟨hlen, hcolon, hnodup⟩ := h
  unfold ASL.tagDict
  have hk := tagDict_foldl_keys
    (((ASL.pyStrip bcontent).splitOn ',').map ASL.pyStrip) []
    hcolon hnodup (by simp)
  have hlm : ((((ASL.pyStrip bcontent).splitOn ',').map ASL.pyStrip).foldl
      ASL.tagStep []).length =
      (((((ASL.pyStrip bcontent).splitOn ',').map ASL.pyStrip).foldl
        ASL.tagStep []).map Prod.fst).length := (List.length_map _ _).symm
  rw [hlm, hk]
  simpa using hlen

theorem findBlocksAux_start_lt_stop :
    ∀ (l : List Char) (i : Nat) (st : Option (Nat × List Char)),
      (∀ s acc, st = some (s, acc) → s < i) →
      ∀ b ∈ ASL.findBlocksAux l i st, b.start < b.stop := by
  intro l
  induction l with
  | nil => intro i st _ b hb; simp [ASL.findBlocksAux] at hb
  | cons c rest ih =>
    intro i st hst b hb
    match st with
    | none =>
      rw [ASL.findBlocksAux] at hb
      by_cases hc : c = '{'
      · rw [if_pos hc] at hb
        exact ih (i + 1) _ (fun s acc hs => by
          injection hs with hs
          injection hs with hs1 _
          omega) b hb
      · rw [if_neg hc] at hb
        exact ih (i + 1) none (by simp) b hb
    | some (s, acc) =>
      have hsi : s < i := hst s acc rfl
      rw [ASL.findBlocksAux] at hb
      by_cases hc : c = '}'
      · rw [if_pos hc] at hb
        by_cases hemp : acc.isEmpty = true
        · rw [if_pos hemp] at hb
          exact ih (i + 1) none (by simp) b hb
        · rw [if_neg hemp] at hb
          rcases List.mem_cons.mp hb with hb1 | hb2
          · subst hb1
            simp only
            omega
          · exact ih (i + 1) none (by simp) b hb2
      · rw [if_neg hc] at hb
        exact ih (i + 1) _ (fun s2 acc2 hs => by
          injection hs with hs
          injection hs with hs1 _
          omega) b hb

/-- C3: for every input whose blocks are all well-formed with `k` key/value
pairs each, `parse` returns exactly (number of blocks) `* k` tags, values
being coerced in the order numeric literal, boolean literal, quoted string,
raw string; in particular the spec's example text parses to exactly two
tags, `mental_state` with string value `focused` and `certainty_level`
with float value `0.85` (the exact rational `mkRat 17 20`). -/
theorem c3_parse_tag_count :
    (∀ (content : List Char) (k : Nat),
      (∀ b ∈ ASL.findBlocks content, ASL.WellFormedBlock b.content k) →
      (ASL.parse content).length = (ASL.findBlocks content).length * k) ∧
    ASL.parse ("\x7bmental_state: ".toList ++ ['\''] ++ "focused".toList ++
        ['\''] ++ ", certainty_level: 0.85\x7d".toList) =
      [⟨"mental_state".toList, .str "focused".toList, ⟨0, 48, 1⟩⟩,
       ⟨"certainty_level".toList, .float (mkRat 17 20), ⟨0, 48, 1⟩⟩] := by
  constructor
  · intro content k h
    unfold ASL.parse
    have hmap : List.map (List.length ∘ fun b => ASL.blockTags content b)
        (ASL.findBlocks content) =
        List.map (fun _ => k) (ASL.findBlocks content) :=
      List.map_congr_left (fun b hb => by
        simp only [Function.comp]
        unfold ASL.blockTags
        rw [List.length_map]
        exact tagDict_length b.content k (h b hb))
    rw [List.length_flatMap, hmap]
    simp [List.map_const]
  · rfl

/-- Witness for C3: the example text has one block that is well-formed with
two pairs, and `parse` returns `1 * 2` tags on it. -/
theorem c3_witness :
    (ASL.parse ("\x7bmental_state: ".toList ++ ['\''] ++ "focused".toList ++
        ['\''] ++ ", certainty_level: 0.85\x7d".toList)).length =
      (ASL.findBlocks ("\x7bmental_state: ".toList ++ ['\''] ++
        "focused".toList ++ ['\''] ++
        ", certainty_level: 0.85\x7d".toList)).length * 2 :=
  c3_parse_tag_count.1 _ 2 (by decide)

/-- C6 counterexample: in `{a: 1.2.3}` the numeric coercion of `1.2.3`
raises `ValueError` (digits-and-dots guard passes, `float()` rejects it),
yet the block is not skipped: it still contributes one tag, with the raw
string as its value — the claim says such a block contributes no tags. -/
theorem c6_counterexample :
    ASL.coercionRaises "1.2.3".toList = true ∧
    ASL.parse "\x7ba: 1.2.3\x7d".toList =
      [⟨"a".toList, .str "1.2.3".toList, ⟨0, 10, 1⟩⟩] :=
  ⟨rfl, rfl⟩

/-- C6 (amended): a `ValueError` raised during numeric value coercion is
caught per pair by the inner `except ValueError`, which falls back to
quote-stripping the raw string; the pair still contributes its tag, the
block is not skipped, and parsing continues with the next block (the outer
per-block handler is unreachable, so `parse` never raises). -/
theorem c6_coercion_fallback (v : List Char) :
    (ASL.coercionRaises v = true →
      ASL.coerceValue v = .str (ASL.stripQuotes v)) ∧
    ASL.parse "\x7ba: 1.2.3\x7d \x7bb: 2\x7d".toList =
      [⟨"a".toList, .str "1.2.3".toList, ⟨0, 10, 1⟩⟩,
       ⟨"b".toList, .int 2, ⟨11, 17, 1⟩⟩] := by
  constructor
  · intro h
    unfold ASL.coercionRaises at h
    simp only [Bool.and_eq_true] at h
    obtain ⟨⟨h1, h2⟩, h3⟩ := h
    unfold ASL.coerceValue
    rw [if_pos h1, if_pos h2, Option.isNone_iff_eq_none.mp h3]
  · rfl

/-- Witness for C6 (amended): the coercion of `1.2.3` raises and falls
back to the raw string. -/
theorem c6_witness :
    ASL.coerceValue "1.2.3".toList = .str "1.2.3".toList :=
  ((c6_coercion_fallback "1.2.3".toList).1 rfl).trans rfl

/-- C9: every tag returned by `parse` has `position.start < position.end`
(the match is at least `{c}` for a nonempty group `c`), and all tags of one
block share that block's position. -/
theorem c9_tag_positions (content : List Char) :
    (∀ t ∈ ASL.parse content, t.position.start < t.position.stop) ∧
    (∀ b ∈ ASL.findBlocks content, ∀ t ∈ ASL.blockTags content b,
      t.position = ASL.blockPos content b) := by
  constructor
  · intro t ht
    unfold ASL.parse at ht
    rw [List.mem_flatMap] at ht
    obtain ⟨b, hb, htb⟩ := ht
    unfold ASL.blockTags at htb
    rw [List.mem_map] at htb
    obtain ⟨kv, hkv, rfl⟩ := htb
    exact findBlocksAux_start_lt_stop content 0 none (by simp) b hb
  · intro b hb t htb
    unfold ASL.blockTags at htb
    rw [List.mem_map] at htb
    obtain ⟨kv, hkv, rfl⟩ := htb
    rfl

/-- Witness for C9: the single tag of `{a: 1}` has position `0 < 6`. -/
theorem c9_witness :
    (⟨"a".toList, ASL.Value.int 1, ⟨0, 6, 1⟩⟩ : ASL.ASLTag).position.start <
      (⟨"a".toList, ASL.Value.int 1, ⟨0, 6, 1⟩⟩ : ASL.ASLTag).position.stop :=
  (c9_tag_positions "\x7ba: 1\x7d".toList).1
    ⟨"a".toList, ASL.Value.int 1, ⟨0, 6, 1⟩⟩ (by decide)
